import Mathlib

/-!
Verification of the rl_algos repository (DDPG and TD3 agents) against its
natural-language specification.  Network parameter tensors are modelled as
flattened lists of rationals where only arithmetic matters, and the real
network forward passes (layer norm, relu, tanh) are modelled over the reals.
Gradient computation and optimizer steps are delegated by the source to an
external autodiff library and are therefore abstracted as given functions.
-/

namespace RLAlgos

/-! ## Target-network update rules (src/ddpg/algos/ddpg.py lines 21-27) -/

/-- Source: `soft_update(target, source, tau)` in src/ddpg/algos/ddpg.py.
For each pair of matched parameters it sets
`target_param = target_param * (1.0 - tau) + param * tau`.
Parameter tensors are modelled as flattened lists of rationals. -/
def soft_update (target source : List ℚ) (tau : ℚ) : List ℚ :=
  List.zipWith (fun target_param param => target_param * (1 - tau) + param * tau) target source

/-- Source: `hard_update(target, source)` in src/ddpg/algos/ddpg.py.
For each pair of matched parameters it copies the source parameter. -/
def hard_update (target source : List ℚ) : List ℚ :=
  List.zipWith (fun _ param => param) target source

/-- Source: the inline target update in src/rl_algos/algos/td3.py lines 102-108:
`target_param.data.copy_(tau * param.data + (1 - tau) * target_param.data)`. -/
def td3_soft_update (target source : List ℚ) (tau : ℚ) : List ℚ :=
  List.zipWith (fun target_param param => tau * param + (1 - tau) * target_param) target source

/-! ## Transitions and Bellman targets -/

/-- One environment step as stored in the replay buffers.  The done flag is
stored by the training loops as a float mask; here it is kept as the Bool it
encodes. -/
structure Transition (σ α : Type) where
  state : σ
  action : α
  reward : ℚ
  nextState : σ
  done : Bool

/-- Source: src/rl_algos/algos/td3.py lines 59-76.  For a sampled batch the
code computes `done = 1 - d`, evaluates both target-critic heads on
(next_state, next_action), takes `target_Q = torch.min(target_Q1, target_Q2)`
and forms `target_Q = reward + (done * discount * target_Q)`.  The two
target-critic heads and the next-action selection (target actor plus clipped
noise) are abstracted as given functions, since their weights live in the
external library. -/
def td3_batch_targets {σ α : Type} (discount : ℚ) (criticT1 criticT2 : σ → α → ℚ)
    (nextAction : σ → α) (batch : List (Transition σ α)) : List ℚ :=
  batch.map (fun tr =>
    let d : ℚ := if tr.done then 1 else 0
    let done : ℚ := 1 - d
    let next_action := nextAction tr.nextState
    let target_Q : ℚ :=
      min (criticT1 tr.nextState next_action) (criticT2 tr.nextState next_action)
    tr.reward + done * discount * target_Q)

/-- Source: src/ddpg/algos/ddpg.py lines 114-120.  The code computes
`next_action_batch = actor_target(next_state)`, evaluates the single target
critic and forms
`expected = reward + (gamma * mask * next_state_action_values)`, where the
stored mask is `Tensor([not done])`, i.e. 0 when the episode terminated. -/
def ddpg_batch_targets {σ α : Type} (gamma : ℚ) (criticT : σ → α → ℚ)
    (actorT : σ → α) (batch : List (Transition σ α)) : List ℚ :=
  batch.map (fun tr =>
    let next_action := actorT tr.nextState
    let mask : ℚ := if tr.done then 0 else 1
    tr.reward + gamma * mask * criticT tr.nextState next_action)

/-! ## Parameter-space noise perturbation (src/ddpg/algos/ddpg.py lines 151-159,
src/rl_algos/algos/td3.py lines 34-42) -/

/-- Substring test modelling the Python expression `sub in s` on strings. -/
def strContains (sub s : String) : Bool :=
  s.toList.tails.any (fun t => sub.toList.isPrefixOf t)

/-- Source: `perturb_actor_parameters` in src/ddpg/algos/ddpg.py lines 151-159
(the TD3 copy in src/rl_algos/algos/td3.py lines 34-42 is identical up to the
state-dict resynchronization call).  The perturbed actor is first
resynchronized from the live actor, then the loop over state-dict entries runs
`if "ln" in name: pass` — the branch body is the Python no-op statement, so it
does not skip the rest of the loop body — and then unconditionally adds
`randn * current_stddev` to the entry.  The state dict is modelled as a list of
(name, value) pairs and the Gaussian draw as a given function of the name. -/
def perturb_actor_parameters (current_stddev : ℚ) (randn : String → ℚ)
    (actor_params : List (String × ℚ)) : List (String × ℚ) :=
  actor_params.map (fun p =>
    if strContains "ln" p.1 then (p.1, p.2 + randn p.1 * current_stddev)
    else (p.1, p.2 + randn p.1 * current_stddev))

/-! ## Checkpoint loading (src/ddpg/algos/ddpg.py lines 189-198) -/

/-- Path concatenation modelling `os.path.join(dir, file)` for a directory
name without a trailing separator. -/
def path_join (dir file : String) : String := dir ++ "/" ++ file

/-- The network and optimizer instances owned by a DDPG agent
(src/ddpg/algos/ddpg.py lines 49-56); the network and optimizer contents are
opaque to checkpoint loading, so their types are abstract. -/
structure DDPGAgentState (N O : Type) where
  actor : N
  actor_target : N
  actor_perturbed : N
  critic : N
  critic_target : N
  actor_optim : O
  critic_optim : O

/-- Source: `DDPG.load_model` in src/ddpg/algos/ddpg.py lines 189-198.  The
code computes four checkpoint paths (including the two target paths), prints
them, and then reassigns only `self.actor` and `self.critic` from
`torch.load`; the `if actor_path is not None` guards are always true because
`os.path.join` returns a string.  Deserialization is modelled as a given
function from path to network.  The result also carries the four computed
paths in source order. -/
def load_model {N O : Type} (torch_load : String → N)
    (st : DDPGAgentState N O) (model_path : String) :
    DDPGAgentState N O × List String :=
  let target_actor_path := path_join model_path "target_actor_model.pt"
  let target_critic_path := path_join model_path "target_critic_model.pt"
  let actor_path := path_join model_path "actor_model.pt"
  let critic_path := path_join model_path "critic_model.pt"
  ({ st with actor := torch_load actor_path, critic := torch_load critic_path },
   [target_actor_path, target_critic_path, actor_path, critic_path])

/-! ## DDPG training-loop sampling guard (src/ddpg/algos/ddpg.py lines 224-267) -/

/-- Modelled from the spec: the length evolution of `DDPGBuffer`
(ddpg/replay_buffer.py is imported by ddpg.py line 9 but is not in src).  Per
spec sections 3 and 8, the buffer has fixed capacity and after N pushes its
length is min(N, capacity); a push therefore takes the length to
min(length + 1, capacity).  Only the length matters to the sampling guard. -/
def bufferLenAfterPush (capacity len : ℕ) : ℕ := min (len + 1) capacity

/-- Source: the inner while loop of `DDPG.train`, src/ddpg/algos/ddpg.py lines
224-267, restricted to what affects sampling.  Each environment step pushes
one transition into the buffer and then, only when
`len(memory) > args.batch_size`, performs `args.updates_per_step` updates,
each of which calls `memory.sample(args.batch_size)`.  The function returns
the buffer length observed at every such `sample` call across the given
number of steps. -/
def ddpg_train_sample_lens (capacity batch_size updates_per_step : ℕ) :
    ℕ → ℕ → List ℕ
  | 0, _ => []
  | steps + 1, len =>
    let len2 := bufferLenAfterPush capacity len
    (if batch_size < len2 then List.replicate updates_per_step len2 else [])
      ++ ddpg_train_sample_lens capacity batch_size updates_per_step steps len2

/-! ## Update scheduling and diagnostics (src/rl_algos/algos/td3.py lines
54-108, src/ddpg/algos/ddpg.py lines 103-149) -/

/-- Mean of a list, `sum / length`, as used by `.mean()` and `np.mean`. -/
def listMean {K : Type} [DivisionRing K] (l : List K) : K :=
  l.sum / (l.length : K)

/-- Mean-squared error between two equally shaped value lists, modelling
`F.mse_loss` with its default mean reduction. -/
def mse_loss (pred target : List ℚ) : ℚ :=
  listMean (List.zipWith (fun a b => (a - b) ^ 2) pred target)

/-- One gradient-or-synchronization action of a training iteration, used to
record which updates the TD3 loop performs at which iteration counter. -/
inductive UpdateEvent where
  | criticStep (it : ℕ)
  | actorStep (it : ℕ)
  | targetSync (it : ℕ)
deriving DecidableEq

/-- Source: `TD3.train` in src/rl_algos/algos/td3.py lines 54-109.  For each
`it in range(iterations)` the loop optimizes the critic, and only when
`it % policy_freq == 0` it additionally optimizes the actor and soft-updates
both target networks.  The method body ends without a return statement, so
its Python value is None: the second component models the returned
diagnostics as an absent optional pair. -/
def td3_train (iterations policy_freq : ℕ) : List UpdateEvent × Option (ℚ × ℚ) :=
  (((List.range iterations).map (fun it =>
      UpdateEvent.criticStep it ::
        (if it % policy_freq == 0 then
          [UpdateEvent.actorStep it, UpdateEvent.targetSync it]
        else []))).flatten,
   none)

/-- Source: `DDPG.update_parameters` in src/ddpg/algos/ddpg.py lines 103-149,
with the external autodiff machinery abstracted: the critic and actor nets
are given as functions of their (flattened) parameter lists, and the two Adam
optimizer steps as given parameter-to-parameter functions.  Following the
source order: the Bellman targets and the critic MSE loss are computed from
the current nets, the critic optimizer steps, the policy loss is the mean of
the negated updated-critic values at (state, actor(state)), the actor
optimizer steps, both targets are soft-updated, and the two loss values are
returned as (value_loss, policy_loss). -/
def update_parameters {σ α : Type}
    (criticQ : List ℚ → σ → α → ℚ) (actorMu : List ℚ → σ → α)
    (criticOpt actorOpt : List ℚ → List ℚ) (gamma tau : ℚ)
    (actor actor_target critic critic_target : List ℚ)
    (batch : List (Transition σ α)) :
    (List ℚ × List ℚ × List ℚ × List ℚ) × (ℚ × ℚ) :=
  let expected_state_action_batch :=
    ddpg_batch_targets gamma (criticQ critic_target) (actorMu actor_target) batch
  let state_action_batch := batch.map (fun tr => criticQ critic tr.state tr.action)
  let value_loss := mse_loss state_action_batch expected_state_action_batch
  let critic2 := criticOpt critic
  let policy_loss :=
    listMean (batch.map (fun tr => -(criticQ critic2 tr.state (actorMu actor tr.state))))
  let actor2 := actorOpt actor
  ((actor2, soft_update actor_target actor2 tau,
    critic2, soft_update critic_target critic2 tau),
   (value_loss, policy_loss))

/-! ## Network forward passes (src/rl_algos/model/TD3_actor_critic.py) -/

/-- Dot product of a weight row with an input vector. -/
def dotp {K : Type} [Field K] (w x : List K) : K :=
  (List.zipWith (fun a b => a * b) w x).sum

/-- `nn.Linear`: one output per weight row, `row . x + bias`. -/
def linearF {K : Type} [Field K] (weight : List (List K)) (bias : List K)
    (x : List K) : List K :=
  List.zipWith (fun row b => dotp row x + b) weight bias

/-- `F.relu` applied elementwise. -/
def reluL {K : Type} [LinearOrderedField K] (x : List K) : List K :=
  x.map (fun t => max 0 t)

/-- The default `nn.LayerNorm` epsilon, 1e-5. -/
noncomputable def lnEps : ℝ := 1 / 100000

/-- `nn.LayerNorm` with elementwise affine parameters gamma and beta:
each entry is normalized by the mean and variance of the input vector and
then scaled and shifted. -/
noncomputable def layer_norm (gamma beta : List ℝ) (x : List ℝ) : List ℝ :=
  let n : ℝ := (x.length : ℝ)
  let mean := x.sum / n
  let varx := (x.map (fun t => (t - mean) ^ 2)).sum / n
  let normalized := x.map (fun t => (t - mean) / Real.sqrt (varx + lnEps))
  List.zipWith (fun g bv => g * bv.2 + bv.1) gamma (beta.zip normalized)

/-- Parameters of `TD3Actor` (src/rl_algos/model/TD3_actor_critic.py lines
9-23): two linear layers each followed by a layer norm, and the output
layer mu. -/
structure TD3ActorNet where
  linear1_w : List (List ℝ)
  linear1_b : List ℝ
  ln1_g : List ℝ
  ln1_b : List ℝ
  linear2_w : List (List ℝ)
  linear2_b : List ℝ
  ln2_g : List ℝ
  ln2_b : List ℝ
  mu_w : List (List ℝ)
  mu_b : List ℝ

/-- Source: `TD3Actor.forward` in src/rl_algos/model/TD3_actor_critic.py lines
25-34: linear1, ln1, relu, linear2, ln2, relu, then `torch.tanh(self.mu(x))`.
Note the source applies tanh without any max-action scaling. -/
noncomputable def TD3ActorNet.forward (net : TD3ActorNet) (inputs : List ℝ) : List ℝ :=
  let x := linearF net.linear1_w net.linear1_b inputs
  let x := layer_norm net.ln1_g net.ln1_b x
  let x := reluL x
  let x := linearF net.linear2_w net.linear2_b x
  let x := layer_norm net.ln2_g net.ln2_b x
  let x := reluL x
  (linearF net.mu_w net.mu_b x).map Real.tanh

/-- Modelled from the spec: the forward pass of `LN_Actor`
(rl_algos/model/layernorm_actor_critic.py, imported by td3.py line 9 as the
actor actually instantiated with max_action, is not in src).  Per the spec,
the actor output is "bounded to a fixed range ([-1, 1] scaled by max-action)
via a saturating final activation": the tanh output of the feed-forward body
is scaled by max_action. -/
noncomputable def LN_Actor_forward (max_action : ℝ) (net : TD3ActorNet)
    (inputs : List ℝ) : List ℝ :=
  (net.forward inputs).map (fun t => max_action * t)

/-- Parameters of `TD3Critic` (src/rl_algos/model/TD3_actor_critic.py lines
38-64): head Q1 uses linear1, ln1, linear2, ln2, V1 and head Q2 uses linear4,
ln4, linear5, ln5, V2. -/
structure TD3CriticNet where
  linear1_w : List (List ℝ)
  linear1_b : List ℝ
  ln1_g : List ℝ
  ln1_b : List ℝ
  linear2_w : List (List ℝ)
  linear2_b : List ℝ
  ln2_g : List ℝ
  ln2_b : List ℝ
  V1_w : List (List ℝ)
  V1_b : List ℝ
  linear4_w : List (List ℝ)
  linear4_b : List ℝ
  ln4_g : List ℝ
  ln4_b : List ℝ
  linear5_w : List (List ℝ)
  linear5_b : List ℝ
  ln5_g : List ℝ
  ln5_b : List ℝ
  V2_w : List (List ℝ)
  V2_b : List ℝ

/-- Source: `TD3Critic.forward` in src/rl_algos/model/TD3_actor_critic.py
lines 66-91: each head applies its state layer, layer norm, relu,
concatenates the actions (`torch.cat((x, actions), 1)`), applies its second
layer, layer norm, relu and its value layer; both head outputs are
returned. -/
noncomputable def TD3CriticNet.forward (net : TD3CriticNet)
    (inputs actions : List ℝ) : List ℝ × List ℝ :=
  let x1 := linearF net.linear1_w net.linear1_b inputs
  let x1 := layer_norm net.ln1_g net.ln1_b x1
  let x1 := reluL x1
  let x1 := x1 ++ actions
  let x1 := linearF net.linear2_w net.linear2_b x1
  let x1 := layer_norm net.ln2_g net.ln2_b x1
  let x1 := reluL x1
  let v1 := linearF net.V1_w net.V1_b x1
  let x2 := linearF net.linear4_w net.linear4_b inputs
  let x2 := layer_norm net.ln4_g net.ln4_b x2
  let x2 := reluL x2
  let x2 := x2 ++ actions
  let x2 := linearF net.linear5_w net.linear5_b x2
  let x2 := layer_norm net.ln5_g net.ln5_b x2
  let x2 := reluL x2
  let v2 := linearF net.V2_w net.V2_b x2
  (v1, v2)

/-- Source: `TD3Critic.Q1` in src/rl_algos/model/TD3_actor_critic.py lines
93-105, which recomputes the first head only, with the same layers. -/
noncomputable def TD3CriticNet.Q1 (net : TD3CriticNet)
    (inputs actions : List ℝ) : List ℝ :=
  let x1 := linearF net.linear1_w net.linear1_b inputs
  let x1 := layer_norm net.ln1_g net.ln1_b x1
  let x1 := reluL x1
  let x1 := x1 ++ actions
  let x1 := linearF net.linear2_w net.linear2_b x1
  let x1 := layer_norm net.ln2_g net.ln2_b x1
  let x1 := reluL x1
  linearF net.V1_w net.V1_b x1

/-- Concrete all-empty actor used to witness the bound theorems. -/
def emptyActor : TD3ActorNet :=
  ⟨[], [], [], [], [], [], [], [], [], []⟩

/-! ## Parameter-noise distance metric (src/ddpg/algos/ddpg.py lines 29-37) -/

/-- The binding of the bare name `sqrt` in the module namespace of
src/ddpg/algos/ddpg.py.  The module imports (lines 1-15) are torch, torch.nn,
torch.nn.functional, torch.autograd, Variable, Adam, the replay buffer and
model classes, numpy as np, os and time; none of them binds `sqrt`, so the
name is undefined and evaluating it raises NameError. -/
def ddpg_module_sqrt : Option (ℝ → ℝ) := none

/-- `np.mean(m, axis=0)`: the mean over rows, one value per column. -/
noncomputable def np_mean_axis0 (m : List (List ℝ)) : List ℝ :=
  m.transpose.map listMean

/-- Source: `ddpg_distance_metric(actions1, actions2)` in
src/ddpg/algos/ddpg.py lines 29-37: it forms the elementwise difference,
squares it, takes the per-column mean, and then evaluates
`sqrt(np.mean(mean_diff))` — which raises NameError because `sqrt` is not a
bound name in the module (modelled by `ddpg_module_sqrt`). -/
noncomputable def ddpg_distance_metric (actions1 actions2 : List (List ℝ)) :
    Except String ℝ :=
  let diff := List.zipWith (List.zipWith (fun a b => a - b)) actions1 actions2
  let squared := diff.map (fun row => row.map (fun t => t ^ 2))
  let mean_diff := np_mean_axis0 squared
  match ddpg_module_sqrt with
  | none => Except.error "NameError: name sqrt is not defined"
  | some sqrtFn => Except.ok (sqrtFn (listMean mean_diff))

/-! ## Theorems -/

lemma soft_update_one (t s : List ℚ) : soft_update t s 1 = hard_update t s := by
  induction t generalizing s with
  | nil => rfl
  | cons a t ih =>
    cases s with
    | nil => rfl
    | cons b s =>
      simp only [soft_update, hard_update, List.zipWith_cons_cons] at *
      exact congrArg₂ List.cons (by ring) (ih s)

lemma soft_update_zero (t s : List ℚ) (h : t.length = s.length) : soft_update t s 0 = t := by
  induction t generalizing s with
  | nil => rfl
  | cons a t ih =>
    cases s with
    | nil => simp at h
    | cons b s =>
      simp only [soft_update, List.zipWith_cons_cons] at *
      exact congrArg₂ List.cons (by ring) (ih s (by simpa using h))

lemma td3_soft_update_one (t s : List ℚ) : td3_soft_update t s 1 = hard_update t s := by
  induction t generalizing s with
  | nil => rfl
  | cons a t ih =>
    cases s with
    | nil => rfl
    | cons b s =>
      simp only [td3_soft_update, hard_update, List.zipWith_cons_cons] at *
      exact congrArg₂ List.cons (by ring) (ih s)

lemma td3_soft_update_zero (t s : List ℚ) (h : t.length = s.length) :
    td3_soft_update t s 0 = t := by
  induction t generalizing s with
  | nil => rfl
  | cons a t ih =>
    cases s with
    | nil => simp at h
    | cons b s =>
      simp only [td3_soft_update, List.zipWith_cons_cons] at *
      exact congrArg₂ List.cons (by ring) (ih s (by simpa using h))

/-- C4: for matched source and target parameter lists, soft update with tau = 1
produces the same result as hard update (the target becomes an exact copy of the
source), and soft update with tau = 0 leaves the target unchanged; this holds
for both the DDPG helper `soft_update` and the inline TD3 update formula. -/
theorem soft_update_tau_extremes (target source : List ℚ)
    (h : target.length = source.length) :
    soft_update target source 1 = hard_update target source ∧
    soft_update target source 0 = target ∧
    td3_soft_update target source 1 = hard_update target source ∧
    td3_soft_update target source 0 = target :=
  ⟨soft_update_one target source, soft_update_zero target source h,
   td3_soft_update_one target source, td3_soft_update_zero target source h⟩

/-- Witness for C4 at the concrete lists [1, 2] and [3, 4]. -/
theorem soft_update_tau_extremes_witness :
    soft_update [1, 2] [3, 4] 1 = hard_update [1, 2] [3, 4] ∧
    soft_update [1, 2] [3, 4] 0 = [1, 2] ∧
    td3_soft_update [1, 2] [3, 4] 1 = hard_update [1, 2] [3, 4] ∧
    td3_soft_update [1, 2] [3, 4] 0 = [1, 2] :=
  soft_update_tau_extremes [1, 2] [3, 4] rfl

/-- C1: for every sampled batch, the Bellman regression target equals
reward + discount * done_mask * target_Q elementwise, where done_mask is 0 when
the episode terminated and 1 otherwise, and where for TD3 target_Q is the
minimum of the two target-critic heads evaluated on (next_state, next_action)
and for DDPG it is the single target-critic value there. -/
theorem bellman_target_formula {σ α : Type} (discount gamma : ℚ)
    (criticT1 criticT2 : σ → α → ℚ) (nextAction : σ → α)
    (criticT : σ → α → ℚ) (actorT : σ → α) (batch : List (Transition σ α)) :
    td3_batch_targets discount criticT1 criticT2 nextAction batch =
      batch.map (fun tr =>
        tr.reward + discount * (if tr.done then 0 else 1) *
          min (criticT1 tr.nextState (nextAction tr.nextState))
              (criticT2 tr.nextState (nextAction tr.nextState))) ∧
    ddpg_batch_targets gamma criticT actorT batch =
      batch.map (fun tr =>
        tr.reward + gamma * (if tr.done then 0 else 1) *
          criticT tr.nextState (actorT tr.nextState)) := by
  constructor
  · unfold td3_batch_targets
    refine List.map_congr_left (fun tr _ => ?_)
    cases tr.done <;> simp
  · unfold ddpg_batch_targets
    refine List.map_congr_left (fun tr _ => ?_)
    cases tr.done <;> simp

/-- C2 evaluation: with stddev 1 and noise draw 1, a parameter named
"ln1.weight" (whose name the loop does test for the substring "ln") still has
the noise added: its value moves from 0 to 1, differing from the live actor
value 0.  This exhibits that normalization-layer parameters are not skipped. -/
theorem perturb_touches_ln_params :
    perturb_actor_parameters 1 (fun _ => 1)
        [(("ln1.weight" : String), (0 : ℚ)), (("linear1.weight" : String), (0 : ℚ))] =
      [(("ln1.weight" : String), (1 : ℚ)), (("linear1.weight" : String), (1 : ℚ))] ∧
    strContains "ln" "ln1.weight" = true ∧ (1 : ℚ) ≠ 0 := by
  refine ⟨?_, by decide, by norm_num⟩
  simp [perturb_actor_parameters, strContains]

/-- C10: `load_model` reassigns only the live actor and live critic from the
checkpoint files; the target actor, target critic, perturbed actor and both
optimizers are unchanged, even though the target checkpoint paths are among
the four computed paths. -/
theorem load_model_touches_only_live {N O : Type} (torch_load : String → N)
    (st : DDPGAgentState N O) (model_path : String) :
    (load_model torch_load st model_path).1.actor_target = st.actor_target ∧
    (load_model torch_load st model_path).1.critic_target = st.critic_target ∧
    (load_model torch_load st model_path).1.actor_perturbed = st.actor_perturbed ∧
    (load_model torch_load st model_path).1.actor_optim = st.actor_optim ∧
    (load_model torch_load st model_path).1.critic_optim = st.critic_optim ∧
    (load_model torch_load st model_path).1.actor =
      torch_load (path_join model_path "actor_model.pt") ∧
    (load_model torch_load st model_path).1.critic =
      torch_load (path_join model_path "critic_model.pt") ∧
    (load_model torch_load st model_path).2 =
      [path_join model_path "target_actor_model.pt",
       path_join model_path "target_critic_model.pt",
       path_join model_path "actor_model.pt",
       path_join model_path "critic_model.pt"] :=
  ⟨rfl, rfl, rfl, rfl, rfl, rfl, rfl, rfl⟩

/-- C8: every `memory.sample(batch_size)` call issued by the DDPG training
loop happens at a buffer length strictly greater than batch_size; in
particular the length is at least batch_size, so the insufficient-data
failure of sampling is unreachable from the training loop. -/
theorem ddpg_never_samples_underfilled (capacity batch_size updates_per_step
    steps len0 L : ℕ)
    (hL : L ∈ ddpg_train_sample_lens capacity batch_size updates_per_step steps len0) :
    batch_size < L ∧ batch_size ≤ L := by
  refine ?_
  induction steps generalizing len0 with
  | zero => simp [ddpg_train_sample_lens] at hL
  | succ n ih =>
    rw [ddpg_train_sample_lens] at hL
    rcases List.mem_append.mp hL with h1 | h2
    · by_cases hg : batch_size < bufferLenAfterPush capacity len0
      · rw [if_pos hg] at h1
        have := List.eq_of_mem_replicate h1
        subst this
        exact ⟨hg, Nat.le_of_lt hg⟩
      · rw [if_neg hg] at h1
        simp at h1
    · exact ih _ h2

/-- Witness for C8: with capacity 10, batch size 1, one update per step,
3 steps from an empty buffer, the recorded sample-time lengths are [2, 3];
length 2 is among them and indeed exceeds the batch size. -/
theorem ddpg_never_samples_underfilled_witness :
    2 ∈ ddpg_train_sample_lens 10 1 1 3 0 ∧ (1 < 2 ∧ 1 ≤ 2) :=
  ⟨by decide, ddpg_never_samples_underfilled 10 1 1 3 0 2 (by decide)⟩

/-- C5: the TD3 train loop performs the actor update and the soft updates of
both target networks exactly at the iterations it with it % policy_freq = 0
(while the critic update happens at every iteration), whereas
DDPG.update_parameters applies the actor optimizer step and both target soft
updates on every call. -/
theorem td3_delayed_updates_ddpg_every_call {σ α : Type}
    (criticQ : List ℚ → σ → α → ℚ) (actorMu : List ℚ → σ → α)
    (criticOpt actorOpt : List ℚ → List ℚ) (gamma tau : ℚ)
    (actor actor_target critic critic_target : List ℚ)
    (batch : List (Transition σ α))
    (iterations policy_freq it : ℕ) (hpf : 0 < policy_freq) :
    (UpdateEvent.actorStep it ∈ (td3_train iterations policy_freq).1 ↔
      it < iterations ∧ it % policy_freq = 0) ∧
    (UpdateEvent.targetSync it ∈ (td3_train iterations policy_freq).1 ↔
      it < iterations ∧ it % policy_freq = 0) ∧
    (UpdateEvent.criticStep it ∈ (td3_train iterations policy_freq).1 ↔
      it < iterations) ∧
    (update_parameters criticQ actorMu criticOpt actorOpt gamma tau
        actor actor_target critic critic_target batch).1.1 = actorOpt actor ∧
    (update_parameters criticQ actorMu criticOpt actorOpt gamma tau
        actor actor_target critic critic_target batch).1.2.1 =
      soft_update actor_target (actorOpt actor) tau ∧
    (update_parameters criticQ actorMu criticOpt actorOpt gamma tau
        actor actor_target critic critic_target batch).1.2.2.2 =
      soft_update critic_target (criticOpt critic) tau := by
  refine ⟨?_, ?_, ?_, rfl, rfl, rfl⟩
  · simp only [td3_train, List.mem_flatten, List.mem_map, List.mem_range]
    constructor
    · rintro ⟨l, ⟨j, hj, rfl⟩, hm⟩
      rcases List.mem_cons.mp hm with h | h
      · cases h
      · by_cases hc : j % policy_freq == 0
        · rw [if_pos hc] at h
          rcases List.mem_cons.mp h with h1 | h2
          · cases h1
            exact ⟨hj, by simpa using hc⟩
          · rcases List.mem_cons.mp h2 with h3 | h4
            · cases h3
            · cases h4
        · rw [if_neg hc] at h
          cases h
    · rintro ⟨hlt, hmod⟩
      refine ⟨_, ⟨it, hlt, rfl⟩, ?_⟩
      rw [if_pos (by simpa using hmod)]
      simp
  · simp only [td3_train, List.mem_flatten, List.mem_map, List.mem_range]
    constructor
    · rintro ⟨l, ⟨j, hj, rfl⟩, hm⟩
      rcases List.mem_cons.mp hm with h | h
      · cases h
      · by_cases hc : j % policy_freq == 0
        · rw [if_pos hc] at h
          rcases List.mem_cons.mp h with h1 | h2
          · cases h1
          · rcases List.mem_cons.mp h2 with h3 | h4
            · cases h3
              exact ⟨hj, by simpa using hc⟩
            · cases h4
        · rw [if_neg hc] at h
          cases h
    · rintro ⟨hlt, hmod⟩
      refine ⟨_, ⟨it, hlt, rfl⟩, ?_⟩
      rw [if_pos (by simpa using hmod)]
      simp
  · simp only [td3_train, List.mem_flatten, List.mem_map, List.mem_range]
    constructor
    · rintro ⟨l, ⟨j, hj, rfl⟩, hm⟩
      rcases List.mem_cons.mp hm with h | h
      · cases h
        exact hj
      · by_cases hc : j % policy_freq == 0
        · rw [if_pos hc] at h
          rcases List.mem_cons.mp h with h1 | h2
          · cases h1
          · rcases List.mem_cons.mp h2 with h3 | h4
            · cases h3
            · cases h4
        · rw [if_neg hc] at h
          cases h
    · intro hlt
      exact ⟨_, ⟨it, hlt, rfl⟩, List.mem_cons_self _ _⟩

/-- Witness for C5 at iterations 3, policy_freq 2, iteration counter 2, with
trivial nets and an empty batch. -/
theorem td3_delayed_updates_ddpg_every_call_witness :
    (UpdateEvent.actorStep 2 ∈ (td3_train 3 2).1 ↔ 2 < 3 ∧ 2 % 2 = 0) ∧
    (UpdateEvent.targetSync 2 ∈ (td3_train 3 2).1 ↔ 2 < 3 ∧ 2 % 2 = 0) ∧
    (UpdateEvent.criticStep 2 ∈ (td3_train 3 2).1 ↔ 2 < 3) ∧
    (update_parameters (fun _ _ _ => (0 : ℚ)) (fun _ _ => ()) id id 1 1
        [] [] [] [] ([] : List (Transition Unit Unit))).1.1 = id ([] : List ℚ) ∧
    (update_parameters (fun _ _ _ => (0 : ℚ)) (fun _ _ => ()) id id 1 1
        [] [] [] [] ([] : List (Transition Unit Unit))).1.2.1 =
      soft_update [] (id ([] : List ℚ)) 1 ∧
    (update_parameters (fun _ _ _ => (0 : ℚ)) (fun _ _ => ()) id id 1 1
        [] [] [] [] ([] : List (Transition Unit Unit))).1.2.2.2 =
      soft_update [] (id ([] : List ℚ)) 1 :=
  td3_delayed_updates_ddpg_every_call (fun _ _ _ => (0 : ℚ)) (fun _ _ => ())
    id id 1 1 [] [] [] [] ([] : List (Transition Unit Unit)) 3 2 2 (by decide)

/-- C9 counterexample: the TD3 train loop ends without a return statement, so
its returned diagnostics value is None rather than a (critic loss, actor loss)
pair; shown here at one iteration with the default policy_freq of 2. -/
theorem td3_train_returns_none : (td3_train 1 2).2 = none := rfl

/-- C9 (amended): DDPG.update_parameters returns the pair
(critic loss value, actor loss value) — the MSE between the live-critic
estimates and the Bellman targets, followed by the mean of the negated critic
values at (state, actor(state)) — whereas TD3.train performs its updates in
place and returns no diagnostics. -/
theorem update_parameters_diagnostics {σ α : Type}
    (criticQ : List ℚ → σ → α → ℚ) (actorMu : List ℚ → σ → α)
    (criticOpt actorOpt : List ℚ → List ℚ) (gamma tau : ℚ)
    (actor actor_target critic critic_target : List ℚ)
    (batch : List (Transition σ α)) (iterations policy_freq : ℕ) :
    (update_parameters criticQ actorMu criticOpt actorOpt gamma tau
        actor actor_target critic critic_target batch).2 =
      (mse_loss (batch.map (fun tr => criticQ critic tr.state tr.action))
         (ddpg_batch_targets gamma (criticQ critic_target) (actorMu actor_target) batch),
       listMean (batch.map
         (fun tr => -(criticQ (criticOpt critic) tr.state (actorMu actor tr.state))))) ∧
    (td3_train iterations policy_freq).2 = none :=
  ⟨rfl, rfl⟩

lemma tanh_mem_Ioo (x : ℝ) : -1 < Real.tanh x ∧ Real.tanh x < 1 := by
  have upper : ∀ y : ℝ, Real.tanh y < 1 := by
    intro y
    rw [Real.tanh_eq_sinh_div_cosh]
    exact (div_lt_one (Real.cosh_pos y)).mpr (Real.sinh_lt_cosh y)
  have lower : Real.tanh (-x) < 1 := upper (-x)
  rw [Real.tanh_neg] at lower
  exact ⟨by linarith, upper x⟩

lemma map_tanh_getD_bounds (l : List ℝ) (i : ℕ) :
    -1 ≤ (l.map Real.tanh).getD i 0 ∧ (l.map Real.tanh).getD i 0 ≤ 1 := by
  by_cases h : i < (l.map Real.tanh).length
  · rw [List.getD_eq_getElem _ _ h]
    rw [List.getElem_map]
    exact ⟨(tanh_mem_Ioo _).1.le, (tanh_mem_Ioo _).2.le⟩
  · rw [List.getD_eq_default _ _ (Nat.le_of_not_lt h)]
    norm_num

lemma scaled_getD_bounds (c : ℝ) (hc : 0 ≤ c) (l : List ℝ)
    (hb : ∀ j : ℕ, -1 ≤ l.getD j 0 ∧ l.getD j 0 ≤ 1) (i : ℕ) :
    -c ≤ (l.map (fun t => c * t)).getD i 0 ∧
      (l.map (fun t => c * t)).getD i 0 ≤ c := by
  by_cases h : i < (l.map (fun t => c * t)).length
  · rw [List.getD_eq_getElem _ _ h, List.getElem_map]
    have hl : i < l.length := by simpa using h
    have hb2 := hb i
    rw [List.getD_eq_getElem _ _ hl] at hb2
    constructor
    · nlinarith [hb2.1, hb2.2]
    · nlinarith [hb2.1, hb2.2]
  · rw [List.getD_eq_default _ _ (Nat.le_of_not_lt h)]
    constructor <;> linarith

/-- C3: the actor output is elementwise bounded: the in-src TD3Actor forward
pass ends in tanh, so every output entry lies in [-1, 1]; the max-action
scaled actor (LN_Actor, modelled from the spec) has every output entry in
[-max_action, max_action] whenever max_action is nonnegative.  Out-of-range
indices read the default 0, which satisfies both bounds. -/
theorem actor_output_bounded (max_action : ℝ) (h : 0 ≤ max_action)
    (net : TD3ActorNet) (inputs : List ℝ) (i : ℕ) :
    (-1 ≤ (net.forward inputs).getD i 0 ∧ (net.forward inputs).getD i 0 ≤ 1) ∧
    (-max_action ≤ (LN_Actor_forward max_action net inputs).getD i 0 ∧
      (LN_Actor_forward max_action net inputs).getD i 0 ≤ max_action) := by
  have core : ∀ j : ℕ, -1 ≤ (net.forward inputs).getD j 0 ∧
      (net.forward inputs).getD j 0 ≤ 1 := by
    intro j
    exact map_tanh_getD_bounds _ j
  exact ⟨core i, scaled_getD_bounds max_action h _ core i⟩

/-- Witness for C3 with max_action 1, the all-empty actor, empty input and
index 0. -/
theorem actor_output_bounded_witness :
    (-1 ≤ (emptyActor.forward []).getD 0 0 ∧ (emptyActor.forward []).getD 0 0 ≤ 1) ∧
    (-(1 : ℝ) ≤ (LN_Actor_forward 1 emptyActor []).getD 0 0 ∧
      (LN_Actor_forward 1 emptyActor []).getD 0 0 ≤ 1) :=
  actor_output_bounded 1 zero_le_one emptyActor [] 0

/-- C6: TD3Critic.Q1 returns exactly the first component of
TD3Critic.forward on the same inputs, the second component of forward is
unchanged by replacing every first-head parameter, and the first component
is unchanged by replacing every second-head parameter: the two heads share
no parameters. -/
theorem critic_Q1_and_head_independence (net : TD3CriticNet)
    (inputs actions : List ℝ)
    (w1 : List (List ℝ)) (b1 g1 gb1 : List ℝ)
    (w2 : List (List ℝ)) (b2 g2 gb2 : List ℝ)
    (wv : List (List ℝ)) (bv : List ℝ)
    (w4 : List (List ℝ)) (b4 g4 gb4 : List ℝ)
    (w5 : List (List ℝ)) (b5 g5 gb5 : List ℝ)
    (wv2 : List (List ℝ)) (bv2 : List ℝ) :
    net.Q1 inputs actions = (net.forward inputs actions).1 ∧
    (({ net with
        linear1_w := w1
        linear1_b := b1
        ln1_g := g1
        ln1_b := gb1
        linear2_w := w2
        linear2_b := b2
        ln2_g := g2
        ln2_b := gb2
        V1_w := wv
        V1_b := bv } : TD3CriticNet).forward inputs actions).2 =
      (net.forward inputs actions).2 ∧
    (({ net with
        linear4_w := w4
        linear4_b := b4
        ln4_g := g4
        ln4_b := gb4
        linear5_w := w5
        linear5_b := b5
        ln5_g := g5
        ln5_b := gb5
        V2_w := wv2
        V2_b := bv2 } : TD3CriticNet).forward inputs actions).1 =
      (net.forward inputs actions).1 :=
  ⟨rfl, rfl, rfl⟩

/-- C7 evaluation: calling the distance metric on the concrete action arrays
[[1]] and [[0]] raises NameError instead of returning the root-mean-square
difference, because the module never imports `sqrt`. -/
theorem ddpg_distance_metric_raises :
    ddpg_distance_metric [[1]] [[0]] =
      Except.error "NameError: name sqrt is not defined" := rfl

end RLAlgos
